import Mathlib

/-!
Verification of the timing core of react-native-animated-stopwatch-timer.

The development shallowly embeds:
- the throttle primitive of src/utils/throttle.ts as an explicit state machine
  (`ThrottleState`, `throttled`, `throttleTimerCallback`, `throttleCancel`);
- the elapsed-time engine of src/useTimer.ts (`EngineState`, `play`, `pause`,
  `reset`, `tick`, `getSnapshot`), where an interval firing is the `tick`
  operation and the reactive finish effect (which re-runs whenever
  `elapsedInMs` changes) is folded into `setElapsedInMs`;
- the time decomposition of src/utils/performance.ts (`formatTimeWorklet`);
- the animation configuration of src/StopwatchTimer.tsx
  (`selectedPresetParams`, `baseAnimationConfig`).

Timestamps and elapsed times are modelled as `Int` (JS numbers used as ms
counts), nullable refs as `Option Int`, and the JS falsiness test
`!x` on a `number | null` as `jsFalsy`.
-/

namespace AnimatedStopwatch

/-- State owned by one throttle instance (src/utils/throttle.ts):
`previous` is the timestamp of the last leading invocation (0 is the
"never invoked" sentinel, exactly as in the source), and `timeout` models the
pending `setTimeout` handle as the scheduled fire time paired with the
arguments captured when the timer was armed. -/
structure ThrottleState (α : Type) where
  previous : Int
  timeout : Option (Int × α)
deriving DecidableEq

/-- One call of the `throttled` wrapper at wall-clock time `now` with
arguments `args`. Returns the next throttle state together with
`some args` when `func` is invoked synchronously, `none` otherwise.
Mirrors the body of `throttled` in src/utils/throttle.ts lines 23-48. -/
def throttled {α : Type} (leading trailing : Bool) (wait : Int) (now : Int)
    (s : ThrottleState α) (args : α) : ThrottleState α × Option α :=
  let previous := if s.previous = 0 ∧ leading = false then now else s.previous
  let remaining := wait - (now - previous)
  if remaining ≤ 0 ∨ remaining > wait then
    (⟨now, none⟩, some args)
  else if s.timeout.isNone && trailing then
    (⟨previous, some (now + remaining, args)⟩, none)
  else
    (⟨previous, s.timeout⟩, none)

/-- The `setTimeout` callback armed by the trailing branch firing at time
`now` (src/utils/throttle.ts lines 40-44): resets `previous`, clears the
handle and invokes `func` with the captured arguments. A state with no
pending timeout fires nothing. -/
def throttleTimerCallback {α : Type} (leading : Bool) (now : Int)
    (s : ThrottleState α) : ThrottleState α × Option α :=
  match s.timeout with
  | none => (s, none)
  | some (_, args) => (⟨if leading = false then 0 else now, none⟩, some args)

/-- `throttled.cancel` (src/utils/throttle.ts lines 50-56): discards any
pending timeout and resets the window. -/
def throttleCancel {α : Type} (_s : ThrottleState α) : ThrottleState α :=
  ⟨0, none⟩

/-- The `options` argument of `throttle`: each field is `none` when the
caller omits it. -/
structure ThrottleOptions where
  leading : Option Bool
  trailing : Option Bool
deriving DecidableEq

/-- Destructuring default `const { leading = true } = options`. -/
def resolveLeading (o : ThrottleOptions) : Bool :=
  o.leading.getD true

/-- Destructuring default `const { trailing = true } = options`. -/
def resolveTrailing (o : ThrottleOptions) : Bool :=
  o.trailing.getD true

/-- The options the engine passes when wrapping `onFinish`:
`throttle(onFinish, 100, { trailing: false })` (src/useTimer.ts line 33). -/
def onFinishThrottleOptions : ThrottleOptions :=
  ⟨none, some false⟩

/-- The wait window the engine passes when wrapping `onFinish`. -/
def onFinishThrottleWait : Int := 100

/-- The `mode` prop of the hook. -/
inductive Mode where
  | stopwatch : Mode
  | timer : Mode
deriving DecidableEq

/-- The configuration of one `useTimer` instance that the modelled
operations read: `initialTimeInMs` (default 0) and `mode`
(default stopwatch). -/
structure Config where
  initialTimeInMs : Int
  mode : Mode
deriving DecidableEq

/-- `const direction = mode === 'timer' ? -1 : 1` (src/useTimer.ts line 25). -/
def direction (cfg : Config) : Int :=
  if cfg.mode = Mode.timer then -1 else 1

/-- The mutable state of one `useTimer` instance: the `elapsedInMs` React
state, the `startTime` / `pausedTime` / `intervalId` refs, the throttle state
of the wrapped `onFinish`, and a count of actual `onFinish` invocations
(observation variable, not source state). -/
structure EngineState where
  elapsedInMs : Int
  startTime : Option Int
  pausedTime : Option Int
  intervalId : Option Int
  finThrottle : ThrottleState Unit
  finishCount : Nat
deriving DecidableEq

/-- The state of a freshly constructed hook instance, before mount effects. -/
def initialEngineState : EngineState :=
  ⟨0, none, none, none, ⟨0, none⟩, 0⟩

/-- JS falsiness of a `number | null` ref value: `null` and `0` are falsy. -/
def jsFalsy (o : Option Int) : Bool :=
  match o with
  | none => true
  | some n => n == 0

/-- `getSnapshot`: `Math.abs(initialTimeInMs + elapsedInMs * direction)`
(src/useTimer.ts lines 54-56). -/
def getSnapshot (cfg : Config) (s : EngineState) : Nat :=
  (cfg.initialTimeInMs + s.elapsedInMs * direction cfg).natAbs

/-- One call of `throttledOnFinish()` at time `now`: runs the throttle
wrapper configured in src/useTimer.ts lines 32-35 and bumps `finishCount`
when `onFinish` is actually invoked. -/
def callThrottledOnFinish (now : Int) (s : EngineState) : EngineState :=
  let r := throttled (resolveLeading onFinishThrottleOptions)
      (resolveTrailing onFinishThrottleOptions) onFinishThrottleWait now
      s.finThrottle ()
  { s with finThrottle := r.1,
           finishCount := s.finishCount + (if r.2.isSome then 1 else 0) }

/-- One execution of the finish effect body (src/useTimer.ts lines 97-104):
when in timer mode and `elapsedInMs` has reached `initialTimeInMs`, remove
the interval, clamp `elapsedInMs` to `initialTimeInMs` and call the
throttled `onFinish`. -/
def finishEffectOnce (cfg : Config) (now : Int) (s : EngineState) :
    EngineState :=
  if cfg.mode = Mode.timer ∧ cfg.initialTimeInMs ≤ s.elapsedInMs then
    callThrottledOnFinish now
      { s with intervalId := none, elapsedInMs := cfg.initialTimeInMs }
  else s

/-- `setElapsedInMs e` followed by the reactive re-runs of the finish
effect: the effect has `elapsedInMs` among its dependencies, so it runs
after every render in which the value actually changed (React bails out on
a same-value update). The effect body can change `elapsedInMs` at most once
more (it clamps to `initialTimeInMs`), after which the value is a fixpoint,
so two executions suffice. -/
def setElapsedInMs (cfg : Config) (now : Int) (s : EngineState) (e : Int) :
    EngineState :=
  if e = s.elapsedInMs then s
  else
    let s1 : EngineState := { s with elapsedInMs := e }
    let s2 := finishEffectOnce cfg now s1
    if s2.elapsedInMs = s1.elapsedInMs then s2 else finishEffectOnce cfg now s2

/-- `play()` (src/useTimer.ts lines 58-82): early-return when the interval
is armed, or when in timer mode with `elapsedInMs === initialTimeInMs`;
otherwise record the start time if the ref is falsy and arm the interval
(the handle value itself is irrelevant; the model stores `now`). -/
def play (cfg : Config) (now : Int) (s : EngineState) : EngineState :=
  if s.intervalId.isSome then s
  else if s.elapsedInMs = cfg.initialTimeInMs ∧ cfg.mode = Mode.timer then s
  else
    let st := if jsFalsy s.startTime then some now else s.startTime
    { s with startTime := st, intervalId := some now }

/-- One firing of the interval callback at time `now` (src/useTimer.ts
lines 72-81), followed by the reactive finish effect. A cleared interval
never fires, hence the guard on `intervalId`. -/
def tick (cfg : Config) (now : Int) (s : EngineState) : EngineState :=
  if s.intervalId.isNone then s
  else if jsFalsy s.pausedTime then
    setElapsedInMs cfg now s (now - s.startTime.getD 0)
  else
    let elapsedSincePaused := now - s.pausedTime.getD 0
    { s with startTime := some (s.startTime.getD 0 + elapsedSincePaused),
             pausedTime := none }

/-- `pause()` (src/useTimer.ts lines 106-112): clear the interval, record
the pause time when the ref is falsy and time has elapsed, and return the
snapshot. -/
def pause (cfg : Config) (now : Int) (s : EngineState) : EngineState × Nat :=
  let s1 : EngineState := { s with intervalId := none }
  let s2 := if jsFalsy s1.pausedTime ∧ 0 < s1.elapsedInMs then
      { s1 with pausedTime := some now }
    else s1
  (s2, getSnapshot cfg s2)

/-- `reset()` (src/useTimer.ts lines 114-117): clear the interval and the
refs, then set `elapsedInMs` to 0 (running the reactive finish effect,
which executes after the refs are already cleared). -/
def reset (cfg : Config) (now : Int) (s : EngineState) : EngineState :=
  let s1 : EngineState :=
    { s with intervalId := none, startTime := none, pausedTime := none }
  setElapsedInMs cfg now s1 0

/-- Mounting the hook at time `now`: the `initialTimeInMs` effect runs
`reset()` (src/useTimer.ts lines 46-50) and the finish effect runs its
first, unconditional execution, re-running once more if it changed
`elapsedInMs`. -/
def mount (cfg : Config) (now : Int) : EngineState :=
  let s1 := reset cfg now initialEngineState
  let s2 := finishEffectOnce cfg now s1
  if s2.elapsedInMs = s1.elapsedInMs then s2 else finishEffectOnce cfg now s2

/-- External operations on the engine; an interval firing is `tickOp`. -/
inductive Op where
  | playOp : Op
  | pauseOp : Op
  | resetOp : Op
  | tickOp : Op
deriving DecidableEq

/-- Apply one timed operation to the engine. -/
def applyOp (cfg : Config) (s : EngineState) : Op × Int → EngineState
  | (Op.playOp, now) => play cfg now s
  | (Op.pauseOp, now) => (pause cfg now s).1
  | (Op.resetOp, now) => reset cfg now s
  | (Op.tickOp, now) => tick cfg now s

/-- Run a timed operation sequence against the engine. -/
def run (cfg : Config) (s : EngineState) (ops : List (Op × Int)) :
    EngineState :=
  ops.foldl (applyOp cfg) s

/-- The display fields produced by the time decomposition. -/
structure TimeFields where
  tensOfMs : Nat
  lastDigit : Nat
  tens : Nat
  minutes : Nat
  hours : Nat
deriving DecidableEq

/-- `formatTimeWorklet` (src/utils/performance.ts lines 20-34); the
`timeValues` memo of src/useTimer.ts lines 120-136 computes the same
fields from the snapshot. -/
def formatTimeWorklet (timeInMs : Int) (needHour : Bool) : TimeFields :=
  let a := timeInMs.natAbs
  let countInSeconds := a / 1000
  { tensOfMs := a / 10 % 100,
    lastDigit := countInSeconds % 10,
    tens := countInSeconds / 10 % 6,
    minutes := if needHour then countInSeconds % 3600 / 60
      else countInSeconds / 60,
    hours := countInSeconds / 3600 }

/-- The `performanceMode` prop. -/
inductive PerformanceMode where
  | balanced : PerformanceMode
  | performance : PerformanceMode
  | quality : PerformanceMode
deriving DecidableEq

/-- One named constant set of spring parameters. -/
structure SpringPreset where
  damping : Rat
  stiffness : Rat
  mass : Rat
deriving DecidableEq

/-- `ANIMATION_PRESETS.smooth` (src/StopwatchTimer.tsx lines 27-31). -/
def smoothPreset : SpringPreset := ⟨20, 200, 4/5⟩

/-- `ANIMATION_PRESETS.bouncy` (src/StopwatchTimer.tsx lines 32-36). -/
def bouncyPreset : SpringPreset := ⟨8, 100, 1⟩

/-- `ANIMATION_PRESETS.quick` (src/StopwatchTimer.tsx lines 37-41). -/
def quickPreset : SpringPreset := ⟨15, 300, 3/5⟩

/-- `const validPresets = ['smooth', 'bouncy', 'quick']`
(src/StopwatchTimer.tsx line 213). -/
def validPresets : List String := ["smooth", "bouncy", "quick"]

/-- Record lookup `ANIMATION_PRESETS[name]` for the three declared keys. -/
def presetLookup (name : String) : SpringPreset :=
  if name = "bouncy" then bouncyPreset
  else if name = "quick" then quickPreset
  else smoothPreset

/-- The preset the `animationConfig` memo selects
(src/StopwatchTimer.tsx lines 214-217): any name outside `validPresets`
falls back to `'smooth'`. -/
def selectedPresetParams (animationPreset : String) : SpringPreset :=
  presetLookup (if animationPreset ∈ validPresets then animationPreset
    else "smooth")

/-- The duration / delay / distance part of the `animationConfig` memo. -/
structure BaseAnimationConfig where
  duration : Rat
  delay : Rat
  distance : Rat
deriving DecidableEq

/-- `baseConfig` of the `animationConfig` memo (src/StopwatchTimer.tsx
lines 219-229): `'performance'` scales duration by 0.7 and delay by 0.5,
the other modes keep the configured values. -/
def baseAnimationConfig (performanceMode : PerformanceMode)
    (animationDuration animationDelay animationDistance : Rat) :
    BaseAnimationConfig :=
  { duration := if performanceMode = PerformanceMode.performance then
      animationDuration * (7/10) else animationDuration,
    delay := if performanceMode = PerformanceMode.performance then
      animationDelay * (1/2) else animationDelay,
    distance := animationDistance }

/-- Timer configuration with `initialTimeInMs = 5000`. -/
def timer5000Config : Config := ⟨5000, Mode.timer⟩

/-- Stopwatch configuration with the default `initialTimeInMs = 0`. -/
def stopwatchConfig : Config := ⟨0, Mode.stopwatch⟩

/-- Timer configuration with the default `initialTimeInMs = 0`. -/
def timerZeroConfig : Config := ⟨0, Mode.timer⟩

/-- A cleared interval never fires: `tick` is the identity once
`intervalId` is `none`. -/
theorem tick_of_intervalId_none (cfg : Config) (now : Int) (s : EngineState)
    (h : s.intervalId = none) : tick cfg now s = s := by
  simp [tick, h]

/-- Folding any list of interval firings over a state whose interval is
cleared changes nothing. -/
theorem foldl_tick_of_intervalId_none (cfg : Config) (s : EngineState)
    (h : s.intervalId = none) (ticks : List Int) :
    ticks.foldl (fun st nw => tick cfg nw st) s = s := by
  induction ticks with
  | nil => rfl
  | cons t ts ih =>
      simp only [List.foldl_cons, tick_of_intervalId_none cfg t s h, ih]

/-- Running any operation sequence over a state every operation fixes
changes nothing. -/
theorem run_of_fixed (cfg : Config) (s : EngineState)
    (h : ∀ p : Op × Int, applyOp cfg s p = s) (ops : List (Op × Int)) :
    run cfg s ops = s := by
  induction ops with
  | nil => rfl
  | cons p ps ih =>
      show (p :: ps).foldl (applyOp cfg) s = s
      rw [List.foldl_cons, h p]
      exact ih

/-- C5: pause/resume does not double-count the paused duration. In the
spec's scenario — play at 10000, tick at 11000, pause at 11000 (snapshot
1000), 2000 ms pass while paused, play at 13000, resume tick at 13000,
tick at 13500, pause at 13500 — the first snapshot is exactly 1000, the
start reference 10000 is advanced by exactly the 2000 ms paused interval
to 12000, and the final snapshot is exactly 1500 (paused interval
excluded). -/
theorem pause_resume_scenario :
    (let c := stopwatchConfig
     let s1 := play c 10000 (mount c 10000)
     let s2 := tick c 11000 s1
     let p3 := pause c 11000 s2
     let s4 := play c 13000 p3.1
     let s5 := tick c 13000 s4
     let s6 := tick c 13500 s5
     let p7 := pause c 13500 s6
     p3.2 = 1000 ∧ s4.startTime = some 10000 ∧ s5.startTime = some 12000 ∧
       s5.pausedTime = none ∧ p7.2 = 1500) := by
  decide

/-- C6: for every non-negative integer elapsed-millisecond count and every
`needHour` flag, the decomposition of `formatTimeWorklet` satisfies
`hours*3600 + minutes'*60 + tens*10 + lastDigit = floor(elapsedMs/1000)`,
where `minutes'` is the `minutes` field itself when `needHour` is true and
the `minutes` field reduced modulo the hour roll-up (mod 60) when
`needHour` is false. -/
theorem formatTime_decomposition (elapsedMs : Nat) (needHour : Bool) :
    (formatTimeWorklet (elapsedMs : Int) needHour).hours * 3600 +
      (if needHour then (formatTimeWorklet (elapsedMs : Int) needHour).minutes
        else (formatTimeWorklet (elapsedMs : Int) needHour).minutes % 60) * 60 +
      (formatTimeWorklet (elapsedMs : Int) needHour).tens * 10 +
      (formatTimeWorklet (elapsedMs : Int) needHour).lastDigit =
      elapsedMs / 1000 := by
  cases needHour <;> simp [formatTimeWorklet] <;> omega

/-- C8: `performanceMode = 'performance'` yields exactly 0.7 times the
configured animation duration and 0.5 times the configured delay, while
`'balanced'` and `'quality'` keep the configured duration and delay
unmodified. -/
theorem performance_mode_scaling
    (animationDuration animationDelay animationDistance : Rat) :
    baseAnimationConfig PerformanceMode.performance
        animationDuration animationDelay animationDistance =
      ⟨animationDuration * (7/10), animationDelay * (1/2),
        animationDistance⟩ ∧
    baseAnimationConfig PerformanceMode.balanced
        animationDuration animationDelay animationDistance =
      ⟨animationDuration, animationDelay, animationDistance⟩ ∧
    baseAnimationConfig PerformanceMode.quality
        animationDuration animationDelay animationDistance =
      ⟨animationDuration, animationDelay, animationDistance⟩ := by
  refine ⟨rfl, ?_, ?_⟩ <;> simp [baseAnimationConfig]

/-- C10: every `animationPreset` value outside `validPresets` — including
the accepted prop value `'custom'` — selects exactly the `'smooth'` preset
parameters: damping 20, stiffness 200, mass 0.8. -/
theorem preset_fallback (animationPreset : String)
    (h : animationPreset ∉ validPresets) :
    selectedPresetParams animationPreset = smoothPreset ∧
    smoothPreset = ⟨20, 200, 4/5⟩ := by
  refine ⟨?_, rfl⟩
  simp [selectedPresetParams, h, presetLookup]

/-- Witness for C10 at the concrete input `'custom'`. -/
theorem preset_fallback_witness :
    "custom" ∉ validPresets ∧
    (selectedPresetParams "custom" = smoothPreset ∧
      smoothPreset = ⟨20, 200, 4/5⟩) :=
  ⟨by decide, preset_fallback "custom" (by decide)⟩

/-- When the wait window has expired (or time moved backwards), a call of
the throttled wrapper clears any pending timeout, records `now` and
invokes `func` immediately. -/
theorem throttled_fires {α : Type} (leading trailing : Bool)
    (wait now : Int) (s : ThrottleState α) (args : α)
    (hl : ¬(s.previous = 0 ∧ leading = false))
    (h : wait - (now - s.previous) ≤ 0 ∨ wait - (now - s.previous) > wait) :
    throttled leading trailing wait now s args = (⟨now, none⟩, some args) := by
  simp only [throttled, if_neg hl]
  exact if_pos h

/-- A call inside the wait window with trailing enabled and no pending
timeout arms exactly one deferred invocation, scheduled at window expiry
`previous + wait` and carrying this call's arguments. -/
theorem throttled_arms {α : Type} (leading : Bool) (wait now : Int)
    (s : ThrottleState α) (args : α)
    (hl : ¬(s.previous = 0 ∧ leading = false))
    (hpend : s.timeout = none)
    (h₁ : 0 < wait - (now - s.previous))
    (h₂ : wait - (now - s.previous) ≤ wait) :
    throttled leading true wait now s args =
      (⟨s.previous, some (s.previous + wait, args)⟩, none) := by
  simp only [throttled, if_neg hl]
  rw [if_neg (by omega), if_pos (by simp [hpend])]
  have harith : now + (wait - (now - s.previous)) = s.previous + wait := by
    omega
  rw [harith]

/-- A call inside the wait window that does not take the trailing branch
(timeout already pending, or trailing disabled) invokes nothing and keeps
the throttle state unchanged. -/
theorem throttled_coalesces {α : Type} (leading trailing : Bool)
    (wait now : Int) (s : ThrottleState α) (args : α)
    (hl : ¬(s.previous = 0 ∧ leading = false))
    (h₁ : 0 < wait - (now - s.previous))
    (h₂ : wait - (now - s.previous) ≤ wait)
    (hbranch : (s.timeout.isNone && trailing) = false) :
    throttled leading trailing wait now s args =
      (⟨s.previous, s.timeout⟩, none) := by
  simp only [throttled, if_neg hl]
  rw [if_neg (by omega), if_neg (by simp [hbranch])]

/-- C3 counterexample: the engine's `onFinish` throttle options resolve
leading invocation to enabled, not disabled as claimed; moreover, with
both leading and trailing disabled a fresh wrapper would invoke nothing at
the finish transition, while the engine's actual configuration invokes the
callback immediately. -/
theorem onFinish_throttle_leading_counterexample :
    resolveLeading onFinishThrottleOptions = true ∧
    resolveLeading onFinishThrottleOptions ≠ false ∧
    (throttled false false onFinishThrottleWait 1000
        (⟨0, none⟩ : ThrottleState Unit) ()).2 = none ∧
    (throttled (resolveLeading onFinishThrottleOptions)
        (resolveTrailing onFinishThrottleOptions) onFinishThrottleWait 1000
        (⟨0, none⟩ : ThrottleState Unit) ()).2 = some () := by
  decide

/-- C3 amended: the engine wraps `onFinish` in the throttle primitive with
a 100 ms window, trailing invocation disabled and leading invocation left
at its enabled default, so the callback fires immediately at a finish
transition (window already expired), no deferred invocation is ever
scheduled, and a repeated call within the following 100 ms window fires
nothing. -/
theorem onFinish_throttle_amended (now nowLater : Int)
    (s : ThrottleState Unit) (_hpend : s.timeout = none)
    (hfresh : 100 ≤ now - s.previous) (hord : now ≤ nowLater)
    (hwin : nowLater - now < 100) :
    resolveLeading onFinishThrottleOptions = true ∧
    resolveTrailing onFinishThrottleOptions = false ∧
    onFinishThrottleWait = 100 ∧
    throttled (resolveLeading onFinishThrottleOptions)
        (resolveTrailing onFinishThrottleOptions) onFinishThrottleWait now
        s () = (⟨now, none⟩, some ()) ∧
    throttled (resolveLeading onFinishThrottleOptions)
        (resolveTrailing onFinishThrottleOptions) onFinishThrottleWait
        nowLater (⟨now, none⟩ : ThrottleState Unit) () =
      (⟨now, none⟩, none) := by
  refine ⟨rfl, rfl, rfl, ?_, ?_⟩
  · exact throttled_fires true false 100 now s () (by simp)
      (Or.inl (by omega))
  · exact throttled_coalesces true false 100 nowLater ⟨now, none⟩ ()
      (by simp)
      (by show (0 : Int) < 100 - (nowLater - now); omega)
      (by show (100 : Int) - (nowLater - now) ≤ 100; omega) rfl

/-- Witness for C3's amended theorem at `now = 1000`, `nowLater = 1050`,
starting from the fresh throttle state. -/
theorem onFinish_throttle_amended_witness :
    ((⟨0, none⟩ : ThrottleState Unit).timeout = none ∧
      (100 : Int) ≤ 1000 - (⟨0, none⟩ : ThrottleState Unit).previous ∧
      (1000 : Int) ≤ 1050 ∧ (1050 : Int) - 1000 < 100) ∧
    (resolveLeading onFinishThrottleOptions = true ∧
      resolveTrailing onFinishThrottleOptions = false ∧
      onFinishThrottleWait = 100 ∧
      throttled (resolveLeading onFinishThrottleOptions)
          (resolveTrailing onFinishThrottleOptions) onFinishThrottleWait 1000
          (⟨0, none⟩ : ThrottleState Unit) () = (⟨1000, none⟩, some ()) ∧
      throttled (resolveLeading onFinishThrottleOptions)
          (resolveTrailing onFinishThrottleOptions) onFinishThrottleWait
          1050 (⟨1000, none⟩ : ThrottleState Unit) () =
        (⟨1000, none⟩, none)) :=
  ⟨⟨by decide, by decide, by decide, by decide⟩,
    onFinish_throttle_amended 1000 1050 ⟨0, none⟩ (by decide) (by decide)
      (by decide) (by decide)⟩

/-- C4 counterexample: a trailing-enabled wrapper called at 1000 (leading
invocation, argument 1), 1010 (arms the deferred timer, argument 2) and
1020 (coalesced, argument 3) fires its deferred invocation at window
expiry 1100 with argument 2 — the argument of the call that armed the
timer — not with argument 3 of the most recent call. -/
theorem throttle_trailing_args_counterexample :
    (throttleTimerCallback true 1100
        (throttled true true 100 1020
          (throttled true true 100 1010
            (throttled true true 100 1000
              (⟨0, none⟩ : ThrottleState Nat) 1).1 2).1 3).1).2 = some 2 ∧
    (throttleTimerCallback true 1100
        (throttled true true 100 1020
          (throttled true true 100 1010
            (throttled true true 100 1000
              (⟨0, none⟩ : ThrottleState Nat) 1).1 2).1 3).1).2 ≠ some 3 := by
  decide

/-- C4 amended: for every throttled wrapper with trailing enabled, a call
inside the wait window with no timer pending arms exactly one deferred
invocation, scheduled at window expiry (`previous + wait`) and carrying
the arguments of that arming call — the first call coalesced into the
window — and every further call made inside the window while the timer is
pending leaves the throttle state unchanged and invokes nothing, so the
single trailing invocation receives the first (not the most recent)
coalesced call's arguments. -/
theorem throttle_trailing_first_args (leading : Bool) (wait now nowLater : Int)
    (s : ThrottleState Nat) (args argsLater : Nat)
    (hpend : s.timeout = none)
    (hlead : ¬(s.previous = 0 ∧ leading = false))
    (hwin₁ : 0 < wait - (now - s.previous))
    (hwin₂ : wait - (now - s.previous) ≤ wait)
    (hwin₁' : 0 < wait - (nowLater - s.previous))
    (hwin₂' : wait - (nowLater - s.previous) ≤ wait) :
    throttled leading true wait now s args =
      (⟨s.previous, some (s.previous + wait, args)⟩, none) ∧
    throttled leading true wait nowLater
        (⟨s.previous, some (s.previous + wait, args)⟩ : ThrottleState Nat)
        argsLater =
      (⟨s.previous, some (s.previous + wait, args)⟩, none) := by
  constructor
  · exact throttled_arms _ _ _ _ _ hlead hpend hwin₁ hwin₂
  · exact throttled_coalesces _ _ _ _ _ _ hlead hwin₁' hwin₂' (by simp)

/-- Witness for C4's amended theorem: state `previous = 1000`, arming call
at 1010 with argument 2, coalesced call at 1020 with argument 3. -/
theorem throttle_trailing_first_args_witness :
    ((⟨1000, none⟩ : ThrottleState Nat).timeout = none ∧
      ¬((⟨1000, none⟩ : ThrottleState Nat).previous = 0 ∧ true = false) ∧
      (0 : Int) < 100 - (1010 - 1000) ∧ (100 : Int) - (1010 - 1000) ≤ 100 ∧
      (0 : Int) < 100 - (1020 - 1000) ∧ (100 : Int) - (1020 - 1000) ≤ 100) ∧
    (throttled true true 100 1010 (⟨1000, none⟩ : ThrottleState Nat) 2 =
        (⟨1000, some (1100, 2)⟩, none) ∧
      throttled true true 100 1020
          (⟨1000, some (1100, 2)⟩ : ThrottleState Nat) 3 =
        (⟨1000, some (1100, 2)⟩, none)) :=
  ⟨⟨by decide, by decide, by decide, by decide, by decide, by decide⟩,
    throttle_trailing_first_args true 100 1010 1020 ⟨1000, none⟩ 2 3
      (by decide) (by decide) (by decide) (by decide) (by decide)
      (by decide)⟩

/-- C1 counterexample: with `initialTimeInMs = 5000`, after play at 1000
and a tick at 6500 (elapsed 5500 ≥ 5000) the engine has finished, yet
`getSnapshot()` returns 0 — the remaining time
`|initialTimeInMs - elapsedInMs|` — not 5000 as claimed. -/
theorem timer_finish_snapshot_counterexample :
    getSnapshot timer5000Config (tick timer5000Config 6500
        (play timer5000Config 1000 (mount timer5000Config 10))) = 0 ∧
    getSnapshot timer5000Config (tick timer5000Config 6500
        (play timer5000Config 1000 (mount timer5000Config 10))) ≠ 5000 := by
  decide

/-- C1 amended: in timer mode with `initialTimeInMs = 5000`, once a tick
observes elapsed time ≥ 5000 ms the engine stops sampling (interval
cleared, so further ticks are no-ops), clamps the internal `elapsedInMs`
to exactly 5000, invokes `onFinish` exactly once for the finish transition
(the reactive re-evaluation is absorbed by the throttle), and
`getSnapshot()` returns 0, the clamped remaining time. -/
theorem timer_finish_amended (t₀ t₁ u : Int) (ticks : List Int)
    (hu : 100 ≤ u) (hfin : 5000 ≤ u - t₁) :
    (tick timer5000Config u (play timer5000Config t₁
        (mount timer5000Config t₀))).elapsedInMs = 5000 ∧
    (tick timer5000Config u (play timer5000Config t₁
        (mount timer5000Config t₀))).intervalId = none ∧
    (tick timer5000Config u (play timer5000Config t₁
        (mount timer5000Config t₀))).finishCount = 1 ∧
    getSnapshot timer5000Config (tick timer5000Config u
        (play timer5000Config t₁ (mount timer5000Config t₀))) = 0 ∧
    ticks.foldl (fun st nw => tick timer5000Config nw st)
        (tick timer5000Config u (play timer5000Config t₁
          (mount timer5000Config t₀))) =
      tick timer5000Config u (play timer5000Config t₁
        (mount timer5000Config t₀)) := by
  have hstate : tick timer5000Config u (play timer5000Config t₁
      (mount timer5000Config t₀)) =
      ⟨5000, some t₁, none, none, ⟨u, none⟩, 1⟩ := by
    have hplay : play timer5000Config t₁ (mount timer5000Config t₀) =
        ⟨0, some t₁, none, some t₁, ⟨0, none⟩, 0⟩ := rfl
    rw [hplay]
    have hthr1 : throttled (resolveLeading onFinishThrottleOptions)
        (resolveTrailing onFinishThrottleOptions) onFinishThrottleWait u
        (⟨0, none⟩ : ThrottleState Unit) () = (⟨u, none⟩, some ()) :=
      throttled_fires true false 100 u ⟨0, none⟩ () (by simp)
        (Or.inl (by show (100 : Int) - (u - 0) ≤ 0; omega))
    have hthr2 : throttled (resolveLeading onFinishThrottleOptions)
        (resolveTrailing onFinishThrottleOptions) onFinishThrottleWait u
        (⟨u, none⟩ : ThrottleState Unit) () = (⟨u, none⟩, none) :=
      throttled_coalesces true false 100 u ⟨u, none⟩ () (by simp)
        (by show (0 : Int) < 100 - (u - u); omega)
        (by show (100 : Int) - (u - u) ≤ 100; omega) rfl
    show setElapsedInMs timer5000Config u
        ⟨0, some t₁, none, some t₁, ⟨0, none⟩, 0⟩ (u - t₁) = _
    simp only [setElapsedInMs, finishEffectOnce, callThrottledOnFinish,
      timer5000Config, hthr1, hthr2]
    split_ifs <;> simp_all
  rw [hstate]
  exact ⟨rfl, rfl, rfl, rfl, foldl_tick_of_intervalId_none _ _ rfl ticks⟩

/-- Witness for C1's amended theorem: play at 1000, finishing tick at
6500, two further ticks at 7000 and 8000. -/
theorem timer_finish_amended_witness :
    ((100 : Int) ≤ 6500 ∧ (5000 : Int) ≤ 6500 - 1000) ∧
    ((tick timer5000Config 6500 (play timer5000Config 1000
        (mount timer5000Config 10))).elapsedInMs = 5000 ∧
      (tick timer5000Config 6500 (play timer5000Config 1000
        (mount timer5000Config 10))).intervalId = none ∧
      (tick timer5000Config 6500 (play timer5000Config 1000
        (mount timer5000Config 10))).finishCount = 1 ∧
      getSnapshot timer5000Config (tick timer5000Config 6500
        (play timer5000Config 1000 (mount timer5000Config 10))) = 0 ∧
      ([7000, 8000] : List Int).foldl
          (fun st nw => tick timer5000Config nw st)
          (tick timer5000Config 6500 (play timer5000Config 1000
            (mount timer5000Config 10))) =
        tick timer5000Config 6500 (play timer5000Config 1000
          (mount timer5000Config 10))) :=
  ⟨⟨by decide, by decide⟩,
    timer_finish_amended 10 1000 6500 [7000, 8000] (by decide) (by decide)⟩

/-- C2 counterexample: with `initialTimeInMs = 5000` (timer mode),
`reset()` followed by `getSnapshot()` returns 5000 — the full configured
time, since `elapsedInMs` is cleared to 0 — not 0 as claimed. -/
theorem reset_snapshot_counterexample :
    getSnapshot timer5000Config (reset timer5000Config 20
        (mount timer5000Config 10)) = 5000 ∧
    getSnapshot timer5000Config (reset timer5000Config 20
        (mount timer5000Config 10)) ≠ 0 := by
  decide

/-- C2 amended: for every mode and every non-negative configured
`initialTimeInMs`, `reset()` followed by `getSnapshot()` returns
`|initialTimeInMs|`; the round-trip returns 0 exactly for
`initialTimeInMs = 0` (in particular for the defaults). -/
theorem reset_getSnapshot (cfg : Config) (now : Int) (s : EngineState)
    (hinit : 0 ≤ cfg.initialTimeInMs) :
    getSnapshot cfg (reset cfg now s) = cfg.initialTimeInMs.natAbs := by
  obtain ⟨e, st, pt, iid, th, fc⟩ := s
  simp only [reset, setElapsedInMs, finishEffectOnce, callThrottledOnFinish]
  split_ifs <;> simp_all [getSnapshot, direction] <;> omega

/-- Witness for C2's amended theorem at the timer configuration with
`initialTimeInMs = 5000`. -/
theorem reset_getSnapshot_witness :
    (0 : Int) ≤ timer5000Config.initialTimeInMs ∧
    getSnapshot timer5000Config (reset timer5000Config 20
        (mount timer5000Config 10)) =
      timer5000Config.initialTimeInMs.natAbs :=
  ⟨by decide,
    reset_getSnapshot timer5000Config 20 (mount timer5000Config 10)
      (by decide)⟩

/-- C7: `pause()` is idempotent — calling it twice in a row at the same
instant returns the same state and the same snapshot both times — and
`play()` on an engine whose interval is armed changes nothing. -/
theorem pause_play_idempotent (cfg : Config) (now : Int) (s : EngineState) :
    pause cfg now (pause cfg now s).1 = pause cfg now s ∧
    (s.intervalId.isSome = true → play cfg now s = s) := by
  obtain ⟨e, st, pt, iid, th, fc⟩ := s
  constructor
  · simp only [pause, jsFalsy]
    split_ifs <;> simp_all
  · intro h
    simp [play, h]

/-- Witness for C7 at a concrete running engine state. -/
theorem pause_play_idempotent_witness :
    (pause stopwatchConfig 2000 (pause stopwatchConfig 2000
        (⟨500, some 100, none, some 7, ⟨0, none⟩, 0⟩ : EngineState)).1 =
      pause stopwatchConfig 2000
        (⟨500, some 100, none, some 7, ⟨0, none⟩, 0⟩ : EngineState)) ∧
    ((⟨500, some 100, none, some 7, ⟨0, none⟩, 0⟩ :
        EngineState).intervalId.isSome = true →
      play stopwatchConfig 2000
          (⟨500, some 100, none, some 7, ⟨0, none⟩, 0⟩ : EngineState) =
        ⟨500, some 100, none, some 7, ⟨0, none⟩, 0⟩) :=
  pause_play_idempotent stopwatchConfig 2000
    ⟨500, some 100, none, some 7, ⟨0, none⟩, 0⟩

/-- C9: in timer mode with the default `initialTimeInMs = 0`, `play()` on
a freshly mounted engine is a no-op (the early return
`elapsedInMs === initialTimeInMs` holds immediately), and after any
sequence of `play` / `pause` / `reset` / tick operations whatsoever
`getSnapshot()` is still 0: the timer can never be started. -/
theorem timer_zero_play_noop (t₀ now : Int) (ops : List (Op × Int)) :
    play timerZeroConfig now (mount timerZeroConfig t₀) =
      mount timerZeroConfig t₀ ∧
    getSnapshot timerZeroConfig
        (run timerZeroConfig (mount timerZeroConfig t₀) ops) = 0 := by
  obtain ⟨th, fc, hm⟩ : ∃ th fc, mount timerZeroConfig t₀ =
      ⟨0, none, none, none, th, fc⟩ := ⟨_, _, rfl⟩
  have hfix : ∀ p : Op × Int,
      applyOp timerZeroConfig (⟨0, none, none, none, th, fc⟩ : EngineState) p =
        ⟨0, none, none, none, th, fc⟩ := by
    rintro ⟨op, t⟩
    cases op <;>
      simp [applyOp, play, pause, reset, setElapsedInMs, tick, jsFalsy,
        timerZeroConfig]
  refine ⟨?_, ?_⟩
  · rw [hm]
    exact hfix (Op.playOp, now)
  · rw [hm, run_of_fixed _ _ hfix ops]
    rfl

end AnimatedStopwatch
